import Mathlib

/-!
# smartystreets/recaptcha: `default_verifier.go`

A shallow embedding of `DefaultVerifier` (construction through functional
options, and the `Verify` round trip) together with the properties of the
specification that concern it.

Conventions of the embedding.

* Go strings are Lean strings (well-formed UTF-8).
* A Go call that yields `(bool, error)` or panics is an `Outcome`.
* Every call that `Verify` makes on a collaborator (the secret provider, the
  transport, the form encoder, the JSON decoder, the response body) is
  recorded, in program order, in a list of `Event`s returned next to the
  outcome.
* Standard-library behaviour the source relies on but does not define
  (`http.NewRequest`, `url.Values.Encode`, `json.Decoder.Decode`) is a
  parameter, `Stdlib`. The calls evaluated at the end of the file use models
  of `url.Values.Encode` and of `json.Decoder.Decode` written after the
  documentation of `net/url` and `encoding/json`.
* Function and interface values held by a verifier are never nil.
* The secret provider and the transport are functions: one call of `Verify`
  invokes each at most once, so one answer from each describes the call.
-/

namespace Recaptcha

/-! ## Values of the Go runtime and standard library -/

/-- Finite values of Go's `float32`, each denoted by the rational it stands for. -/
abbrev Float32 := ℚ

/-- Nearest integer, ties to the even one. -/
def roundHalfEven (q : ℚ) : ℤ :=
  if q - ⌊q⌋ < 1 / 2 then ⌊q⌋
  else if 1 / 2 < q - ⌊q⌋ then ⌊q⌋ + 1
  else if ⌊q⌋ % 2 = 0 then ⌊q⌋ else ⌊q⌋ + 1

/-- Binary exponent of a positive rational: the `e` with `2^e ≤ q < 2^(e+1)`. -/
def binaryExponent (q : ℚ) : ℤ :=
  if (2 : ℚ) ^ ((Nat.log2 q.num.natAbs : ℤ) - (Nat.log2 q.den : ℤ)) ≤ q then
    (Nat.log2 q.num.natAbs : ℤ) - (Nat.log2 q.den : ℤ)
  else
    (Nat.log2 q.num.natAbs : ℤ) - (Nat.log2 q.den : ℤ) - 1

/-- Conversion of an untyped numeric constant to `float32`: round to nearest, ties to
even, with a 24-bit significand and exponents no smaller than that of the subnormals.
A constant that overflows `float32` does not compile, so that range is not singled out. -/
def float32 (q : ℚ) : Float32 :=
  if q = 0 then 0
  else
    (if q < 0 then -1 else 1) *
      (roundHalfEven (|q| * (2 : ℚ) ^ (23 - max (binaryExponent |q|) (-126))) : ℚ) *
      (2 : ℚ) ^ (max (binaryExponent |q|) (-126) - 23)

/-- Go's `unicode.IsSpace`: the Latin-1 spaces and the code points with the Unicode
`White_Space` property. -/
def isSpace (c : Char) : Bool :=
  c.toNat = 0x09 || c.toNat = 0x0A || c.toNat = 0x0B || c.toNat = 0x0C || c.toNat = 0x0D ||
  c.toNat = 0x20 || c.toNat = 0x85 || c.toNat = 0xA0 || c.toNat = 0x1680 ||
  (0x2000 ≤ c.toNat && c.toNat ≤ 0x200A) || c.toNat = 0x2028 || c.toNat = 0x2029 ||
  c.toNat = 0x202F || c.toNat = 0x205F || c.toNat = 0x3000

/-- Go's `strings.TrimSpace`: the string without its leading and trailing white space. -/
def TrimSpace (s : String) : String :=
  ⟨((s.data.dropWhile isSpace).reverse.dropWhile isSpace).reverse⟩

/-- Modelled from the spec: the sentinel `ErrLookupFailure` is declared outside
`default_verifier.go`; every other error value (a transport error, a decoding error) is
`other`. -/
inductive GoError where
  | ErrLookupFailure
  | other (text : String)
deriving DecidableEq, Repr

/-- Result of a Go call of type `(bool, error)`: it returns a pair, or the goroutine
panics. -/
inductive Outcome where
  | returned (ok : Bool) (err : Option GoError)
  | panicked
deriving DecidableEq, Repr

/-- Go's `url.Values`, a map from field name to its values, kept as an association list in
insertion order. -/
abbrev Values := List (String × List String)

/-- Go's `url.Values.Set`: the field now holds exactly the one value. -/
def Values.Set (values : Values) (key value : String) : Values :=
  if values.any (fun kv => kv.1 == key) then
    values.map (fun kv => if kv.1 == key then (key, [value]) else kv)
  else
    values ++ [(key, [value])]

/-- The part of `http.Request` that the verifier fills in. -/
structure Request where
  Method : String
  URL : String
  Header : List (String × String)
  Body : String
deriving DecidableEq, Repr

/-- The part of `http.Response` that the verifier reads: the bytes its body yields. A
response always carries a body, as `http.Client` guarantees. -/
structure Response where
  Body : String
deriving DecidableEq, Repr

/-- The `httpClient` interface: `Do` yields a response pointer (nil is `none`) and an
error (nil is `none`). -/
structure httpClient where
  Do : Request → Option Response × Option GoError

/-- A map of Go type `map[string]struct{}`, used as a set of strings. -/
abbrev StringSet := Finset String

/-- Modelled from the spec: the type `defaultLookup` is declared outside
`default_verifier.go`; its fields are those of section 3 (Lookup Result). -/
structure defaultLookup where
  Success : Bool
  Score : Float32
  Action : String
  Hostname : String
  ChallengeTS : String
  ErrorCodes : List String
deriving DecidableEq, Repr

/-- Modelled from the spec: `defaultLookup.IsValid` is declared outside
`default_verifier.go`; this is the decision function of section 4.1, its checks in the
order given there. -/
def defaultLookup.IsValid (this : defaultLookup) (allowedHosts allowedActions : StringSet)
    (threshold : Float32) : Bool × Option GoError :=
  if this.Success = false then (false, none)
  else if 0 < allowedHosts.card ∧ this.Hostname ∉ allowedHosts then (false, none)
  else if 0 < allowedActions.card ∧ this.Action ∉ allowedActions then (false, none)
  else if this.Score < threshold then (false, none)
  else (true, none)

/-- Behaviour of the standard library that the source calls but does not define. -/
structure Stdlib where
  /-- Whether `http.NewRequest` accepts the URL (it returns a nil request and an error
  when the URL does not parse). -/
  urlParses : String → Bool
  /-- The function `url.Values.Encode`. -/
  Encode : Values → String
  /-- The call `json.NewDecoder(body).Decode(&lookup)` on a body yielding the given bytes:
  the decoded value, or `none` when it returns an error. -/
  Decode : String → Option defaultLookup

/-- Go's `http.NewRequest`: nil (`none`) when the URL does not parse. -/
def NewRequest (lib : Stdlib) (method url body : String) : Option Request :=
  if lib.urlParses url then some { Method := method, URL := url, Header := [], Body := body }
  else none

/-- Go's `http.Header.Set` on the header of a request. -/
def Request.setHeader (request : Request) (key value : String) : Request :=
  { request with
    Header := (request.Header.filter (fun kv => kv.1 != key)) ++ [(key, value)] }

/-- A call made on a collaborator during `Verify`. -/
inductive Event where
  /-- The secret provider was invoked and returned `value`. -/
  | secret (value : String)
  /-- The form `values` were encoded as a request body. -/
  | encode (values : Values)
  /-- The transport's `Do` was invoked on `request` and returned `(response, err)`. -/
  | Do (request : Request) (response : Option Response) (err : Option GoError)
  /-- The JSON decoder read the response body. -/
  | decode (body : String)
  /-- The response body was closed. -/
  | close (body : String)
deriving DecidableEq, Repr

/-! ## `default_verifier.go` -/

def contentTypeHeader : String := "Content-Type"

def defaultContentType : String := "application/x-www-form-urlencoded"

def defaultEndpoint : String := "https://www.google.com/recaptcha/api/siteverify"

/-- The untyped constant `0.3`. -/
def defaultThreshold : ℚ := 3 / 10

structure DefaultVerifier where
  secret : Unit → String
  client : httpClient
  endpoint : String
  threshold : Float32
  hosts : StringSet
  actions : StringSet

/-- Go's `type VerifierOption func(this *DefaultVerifier)`: the mutation is the function
from the verifier before to the verifier after. -/
abbrev VerifierOption := DefaultVerifier → DefaultVerifier

def createMap (values : List String) : StringSet :=
  values.foldl (fun allowed value => insert value allowed) ∅

def WithSecret (callback : Unit → String) : VerifierOption :=
  fun this => { this with secret := callback }

def WithHTTPClient (value : httpClient) : VerifierOption :=
  fun this => { this with client := value }

def WithEndpoint (value : String) : VerifierOption :=
  fun this => { this with endpoint := value }

def WithRequiredThreshold (value : Float32) : VerifierOption :=
  fun this => { this with threshold := value }

def WithAllowedHosts (values : List String) : VerifierOption :=
  fun this => { this with hosts := createMap values }

def WithAllowedActions (values : List String) : VerifierOption :=
  fun this => { this with actions := createMap values }

/-- The value `&DefaultVerifier{}`. The nil function and the nil interface of the zero
value are never used: the first two defaults overwrite them, so the two fields start at
those defaults. -/
def zeroVerifier (DefaultClient : httpClient) : DefaultVerifier :=
  { secret := fun _ => "", client := DefaultClient, endpoint := "", threshold := 0,
    hosts := ∅, actions := ∅ }

/-- `NewVerifier`; `DefaultClient` stands for `http.DefaultClient`. -/
def NewVerifier (DefaultClient : httpClient) (options : List VerifierOption) :
    DefaultVerifier :=
  options.foldl (fun this option => option this)
    (WithAllowedActions []
      (WithAllowedHosts []
        (WithRequiredThreshold (float32 defaultThreshold)
          (WithEndpoint defaultEndpoint
            (WithHTTPClient DefaultClient
              (WithSecret (fun _ => "") (zeroVerifier DefaultClient)))))))

/-- The form values assembled by `buildRequestBody` (its local `values`). -/
def DefaultVerifier.requestValues (this : DefaultVerifier) (token clientIP : String) : Values :=
  if 0 < clientIP.utf8ByteSize then
    Values.Set [("secret", [this.secret ()]), ("response", [token])] "remoteip" clientIP
  else
    [("secret", [this.secret ()]), ("response", [token])]

/-- `buildRequestBody`: the encoded body, and the calls made to obtain it (the secret
provider, then the encoder). -/
def DefaultVerifier.buildRequestBody (lib : Stdlib) (this : DefaultVerifier)
    (token clientIP : String) : String × List Event :=
  (lib.Encode (this.requestValues token clientIP),
    [Event.secret (this.secret ()), Event.encode (this.requestValues token clientIP)])

/-- `newRequest`: what `Do` returned, or `none` for the panic of `request.Header.Set` on
the nil request that `http.NewRequest` returns when it fails (its error is discarded). -/
def DefaultVerifier.newRequest (lib : Stdlib) (this : DefaultVerifier)
    (token clientIP : String) : Option (Option Response × Option GoError) × List Event :=
  let body := this.buildRequestBody lib token clientIP
  match NewRequest lib "POST" this.endpoint body.1 with
  | none => (none, body.2)
  | some request =>
    let request := request.setHeader contentTypeHeader defaultContentType
    let answer := this.client.Do request
    (some answer, body.2 ++ [Event.Do request answer.1 answer.2])

/-- `parseLookup`: the decoded lookup or the decoder's error (`none`), then the deferred
close of the body. -/
def DefaultVerifier.parseLookup (lib : Stdlib) (_this : DefaultVerifier)
    (response : Response) : Option defaultLookup × List Event :=
  (lib.Decode response.Body, [Event.decode response.Body, Event.close response.Body])

def DefaultVerifier.verify (lib : Stdlib) (this : DefaultVerifier)
    (token clientIP : String) : Outcome × List Event :=
  match this.newRequest lib token clientIP with
  | (none, trace) => (Outcome.panicked, trace)
  | (some (_, some _), trace) => (Outcome.returned false (some GoError.ErrLookupFailure), trace)
  | (some (none, none), trace) => (Outcome.panicked, trace)
  | (some (some response, none), trace) =>
    match this.parseLookup lib response with
    | (none, closing) =>
      (Outcome.returned false (some GoError.ErrLookupFailure), trace ++ closing)
    | (some lookup, closing) =>
      (Outcome.returned (lookup.IsValid this.hosts this.actions this.threshold).1
        (lookup.IsValid this.hosts this.actions this.threshold).2, trace ++ closing)

def DefaultVerifier.Verify (lib : Stdlib) (this : DefaultVerifier)
    (token clientIP : String) : Outcome × List Event :=
  if (TrimSpace token).utf8ByteSize = 0 then (Outcome.returned false none, [])
  else this.verify lib (TrimSpace token) clientIP

/-! ## The options as data -/

/-- The options a caller can pass to `NewVerifier`, one for each `With...` function of
the source. -/
inductive Setting where
  | secret (callback : Unit → String)
  | client (value : httpClient)
  | endpoint (value : String)
  | threshold (value : Float32)
  | hosts (values : List String)
  | actions (values : List String)

/-- The `VerifierOption` that a setting denotes. -/
def Setting.option : Setting → VerifierOption
  | Setting.secret callback => WithSecret callback
  | Setting.client value => WithHTTPClient value
  | Setting.endpoint value => WithEndpoint value
  | Setting.threshold value => WithRequiredThreshold value
  | Setting.hosts values => WithAllowedHosts values
  | Setting.actions values => WithAllowedActions values

def Setting.secret? : Setting → Option (Unit → String)
  | Setting.secret callback => some callback
  | _ => none

def Setting.client? : Setting → Option httpClient
  | Setting.client value => some value
  | _ => none

def Setting.endpoint? : Setting → Option String
  | Setting.endpoint value => some value
  | _ => none

def Setting.threshold? : Setting → Option Float32
  | Setting.threshold value => some value
  | _ => none

def Setting.hosts? : Setting → Option (List String)
  | Setting.hosts values => some values
  | _ => none

def Setting.actions? : Setting → Option (List String)
  | Setting.actions values => some values
  | _ => none

/-- The value given by the last element of the list on which `f` is defined. -/
def lastSome {α β : Type} (f : α → Option β) : List α → Option β
  | [] => none
  | a :: rest =>
    match lastSome f rest with
    | some b => some b
    | none => f a

/-! ## Observations on a trace -/

/-- Number of invocations of the secret provider. -/
def secretCalls (trace : List Event) : Nat :=
  (trace.filter (fun e => match e with | Event.secret _ => true | _ => false)).length

/-- Number of invocations of the transport's `Do`. -/
def doCalls (trace : List Event) : Nat :=
  (trace.filter (fun e => match e with | Event.Do _ _ _ => true | _ => false)).length

/-- The form values encoded during the call, one entry for each encoding. -/
def encodedValues (trace : List Event) : List Values :=
  trace.filterMap (fun e => match e with | Event.encode values => some values | _ => none)

/-! ## A model of `encoding/json` and of `url.Values.Encode` -/

/-- A JSON value as `encoding/json` scans it. -/
inductive JSONValue where
  | null
  | bool (value : Bool)
  | number (value : ℚ)
  | string (value : String)
  | array (items : List JSONValue)
  | object (members : List (String × JSONValue))

/-- The white space of JSON: space, tab, carriage return, line feed. -/
def isJSONSpace (c : Char) : Bool :=
  c.toNat = 0x20 || c.toNat = 0x09 || c.toNat = 0x0D || c.toNat = 0x0A

def skipSpace (cs : List Char) : List Char :=
  cs.dropWhile isJSONSpace

def isDigit (c : Char) : Bool :=
  0x30 ≤ c.toNat && c.toNat ≤ 0x39

def digitsValue (digits : List Char) : Nat :=
  digits.foldl (fun n d => 10 * n + (d.toNat - 0x30)) 0

/-- What follows `literal` at the head of `cs`, when `cs` starts with it. -/
def dropLiteral : List Char → List Char → Option (List Char)
  | [], cs => some cs
  | _ :: _, [] => none
  | l :: literal, c :: cs => if l = c then dropLiteral literal cs else none

/-- The value of a hexadecimal digit. -/
def hexValue (c : Char) : Option Nat :=
  if 0x30 ≤ c.toNat ∧ c.toNat ≤ 0x39 then some (c.toNat - 0x30)
  else if 0x41 ≤ c.toNat ∧ c.toNat ≤ 0x46 then some (c.toNat - 0x41 + 10)
  else if 0x61 ≤ c.toNat ∧ c.toNat ≤ 0x66 then some (c.toNat - 0x61 + 10)
  else none

/-- The code unit written as four hexadecimal digits at the head of `cs`. -/
def hex4 (cs : List Char) : Option (Nat × List Char) :=
  match cs with
  | a :: b :: c :: d :: rest =>
    match hexValue a, hexValue b, hexValue c, hexValue d with
    | some x, some y, some z, some w => some (4096 * x + 256 * y + 16 * z + w, rest)
    | _, _, _, _ => none
  | _ => none

/-- The character of a one-letter escape (the letter after the backslash). -/
def simpleEscape (c : Char) : Option Char :=
  if c.toNat = 0x22 then some (Char.ofNat 0x22)
  else if c.toNat = 0x5C then some (Char.ofNat 0x5C)
  else if c.toNat = 0x2F then some (Char.ofNat 0x2F)
  else if c.toNat = 0x62 then some (Char.ofNat 0x08)
  else if c.toNat = 0x66 then some (Char.ofNat 0x0C)
  else if c.toNat = 0x6E then some (Char.ofNat 0x0A)
  else if c.toNat = 0x72 then some (Char.ofNat 0x0D)
  else if c.toNat = 0x74 then some (Char.ofNat 0x09)
  else none

/-- The low surrogate written as `\uXXXX` at the head of `cs`, when there is one. -/
def lowSurrogate (cs : List Char) : Option (Nat × List Char) :=
  match cs with
  | b :: u :: rest =>
    if b.toNat = 0x5C ∧ u.toNat = 0x75 then
      match hex4 rest with
      | some (low, rest2) => if 0xDC00 ≤ low ∧ low ≤ 0xDFFF then some (low, rest2) else none
      | none => none
    else none
  | _ => none

/-- The rest of a string literal, after its opening quote: its characters up to the
closing quote, and what follows. A control character or a wrong escape is an error. -/
def parseStringBody : Nat → List Char → List Char → Option (String × List Char)
  | 0, _, _ => none
  | _ + 1, [], _ => none
  | fuel + 1, c :: rest, acc =>
    if c.toNat = 0x22 then some (String.mk acc.reverse, rest)
    else if c.toNat < 0x20 then none
    else if c.toNat = 0x5C then
      match rest with
      | [] => none
      | e :: rest2 =>
        if e.toNat = 0x75 then
          match hex4 rest2 with
          | none => none
          | some (unit, rest3) =>
            if 0xD800 ≤ unit ∧ unit ≤ 0xDBFF then
              match lowSurrogate rest3 with
              | some (low, rest4) =>
                parseStringBody fuel rest4
                  (Char.ofNat (0x10000 + (unit - 0xD800) * 0x400 + (low - 0xDC00)) :: acc)
              | none => parseStringBody fuel rest3 (Char.ofNat 0xFFFD :: acc)
            else if 0xDC00 ≤ unit ∧ unit ≤ 0xDFFF then
              parseStringBody fuel rest3 (Char.ofNat 0xFFFD :: acc)
            else parseStringBody fuel rest3 (Char.ofNat unit :: acc)
        else
          match simpleEscape e with
          | some ch => parseStringBody fuel rest2 (ch :: acc)
          | none => none
    else parseStringBody fuel rest (c :: acc)

/-- The exponent part of a number at the head of `cs`: its value, or zero when there is
no exponent; `none` when an `e` is not followed by digits. -/
def parseExponent (cs : List Char) : Option (ℤ × List Char) :=
  match cs with
  | e :: rest =>
    if e.toNat = 0x65 ∨ e.toNat = 0x45 then
      match rest with
      | s :: rest2 =>
        if s.toNat = 0x2B then
          if (rest2.span isDigit).1 = [] then none
          else some ((digitsValue (rest2.span isDigit).1 : ℤ), (rest2.span isDigit).2)
        else if s.toNat = 0x2D then
          if (rest2.span isDigit).1 = [] then none
          else some (-(digitsValue (rest2.span isDigit).1 : ℤ), (rest2.span isDigit).2)
        else
          if (rest.span isDigit).1 = [] then none
          else some ((digitsValue (rest.span isDigit).1 : ℤ), (rest.span isDigit).2)
      | [] => none
    else some (0, cs)
  | [] => some (0, [])

/-- The fraction part of a number at the head of `cs`: its digits (none when there is no
fraction); `none` when a point is not followed by a digit. -/
def parseFraction (cs : List Char) : Option (List Char × List Char) :=
  match cs with
  | p :: rest =>
    if p.toNat = 0x2E then
      if (rest.span isDigit).1 = [] then none else some (rest.span isDigit)
    else some ([], cs)
  | [] => some ([], [])

/-- The digits of the integer part of a number at the head of `cs`: a lone zero, or a
digit from one to nine followed by digits. -/
def parseInteger (cs : List Char) : Option (List Char × List Char) :=
  match cs with
  | d :: rest =>
    if d.toNat = 0x30 then some ([d], rest)
    else if isDigit d then some (d :: (rest.span isDigit).1, (rest.span isDigit).2)
    else none
  | [] => none

/-- An unsigned JSON number at the head of `cs`, as the rational it denotes. -/
def parseUnsigned (cs : List Char) : Option (ℚ × List Char) :=
  match parseInteger cs with
  | none => none
  | some (whole, rest) =>
    match parseFraction rest with
    | none => none
    | some (fraction, rest2) =>
      match parseExponent rest2 with
      | none => none
      | some (exponent, rest3) =>
        some ((digitsValue (whole ++ fraction) : ℚ) / (10 : ℚ) ^ fraction.length *
          (10 : ℚ) ^ exponent, rest3)

/-- A JSON number at the head of `cs`. -/
def parseNumber (cs : List Char) : Option (ℚ × List Char) :=
  match cs with
  | m :: rest =>
    if m.toNat = 0x2D then
      match parseUnsigned rest with
      | some (q, rest2) => some (-q, rest2)
      | none => none
    else parseUnsigned cs
  | [] => none

mutual

/-- The first JSON value of `cs` (after white space) and what follows it. -/
def parseValue : Nat → List Char → Option (JSONValue × List Char)
  | 0, _ => none
  | fuel + 1, cs =>
    match skipSpace cs with
    | [] => none
    | c :: rest =>
      if c.toNat = 0x7B then
        match skipSpace rest with
        | [] => none
        | d :: rest2 =>
          if d.toNat = 0x7D then some (JSONValue.object [], rest2)
          else parseMembers fuel (d :: rest2) []
      else if c.toNat = 0x5B then
        match skipSpace rest with
        | [] => none
        | d :: rest2 =>
          if d.toNat = 0x5D then some (JSONValue.array [], rest2)
          else parseItems fuel (d :: rest2) []
      else if c.toNat = 0x22 then
        match parseStringBody (rest.length + 1) rest [] with
        | some (s, rest2) => some (JSONValue.string s, rest2)
        | none => none
      else if c.toNat = 0x74 then
        match dropLiteral "true".data (c :: rest) with
        | some rest2 => some (JSONValue.bool true, rest2)
        | none => none
      else if c.toNat = 0x66 then
        match dropLiteral "false".data (c :: rest) with
        | some rest2 => some (JSONValue.bool false, rest2)
        | none => none
      else if c.toNat = 0x6E then
        match dropLiteral "null".data (c :: rest) with
        | some rest2 => some (JSONValue.null, rest2)
        | none => none
      else
        match parseNumber (c :: rest) with
        | some (q, rest2) => some (JSONValue.number q, rest2)
        | none => none

/-- The members of an object from the first key on, up to the closing brace. -/
def parseMembers : Nat → List Char → List (String × JSONValue) →
    Option (JSONValue × List Char)
  | 0, _, _ => none
  | fuel + 1, cs, acc =>
    match skipSpace cs with
    | [] => none
    | q :: rest =>
      if q.toNat = 0x22 then
        match parseStringBody (rest.length + 1) rest [] with
        | none => none
        | some (key, rest2) =>
          match skipSpace rest2 with
          | [] => none
          | colon :: rest3 =>
            if colon.toNat = 0x3A then
              match parseValue fuel rest3 with
              | none => none
              | some (value, rest4) =>
                match skipSpace rest4 with
                | [] => none
                | e :: rest5 =>
                  if e.toNat = 0x2C then parseMembers fuel rest5 (acc ++ [(key, value)])
                  else if e.toNat = 0x7D then
                    some (JSONValue.object (acc ++ [(key, value)]), rest5)
                  else none
            else none
      else none

/-- The items of an array from the first one on, up to the closing bracket. -/
def parseItems : Nat → List Char → List JSONValue → Option (JSONValue × List Char)
  | 0, _, _ => none
  | fuel + 1, cs, acc =>
    match parseValue fuel cs with
    | none => none
    | some (value, rest) =>
      match skipSpace rest with
      | [] => none
      | e :: rest2 =>
        if e.toNat = 0x2C then parseItems fuel rest2 (acc ++ [value])
        else if e.toNat = 0x5D then some (JSONValue.array (acc ++ [value]), rest2)
        else none

end

/-- Go's `json.Valid`: the whole text is one JSON value, white space around it
allowed. -/
def isValidJSON (text : String) : Bool :=
  match parseValue (text.data.length + 1) text.data with
  | some (_, rest) => (skipSpace rest).isEmpty
  | none => false

/-- The smallest character of the case-folding class of `c`, for the classes that hold
an ASCII letter (the long s folds with `s`, the Kelvin sign with `k`). -/
def foldRune (c : Char) : Nat :=
  if 0x61 ≤ c.toNat ∧ c.toNat ≤ 0x7A then c.toNat - 0x20
  else if c.toNat = 0x17F then 0x53
  else if c.toNat = 0x212A then 0x4B
  else c.toNat

/-- Whether an object key names the field with the given JSON name (a match up to
case). -/
def keyMatches (key name : String) : Bool :=
  key.data.map foldRune = name.data.map foldRune

/-- The strings of an array of strings (a `null` item leaves the empty string). -/
def stringItems : List JSONValue → Option (List String)
  | [] => some []
  | JSONValue.string s :: rest => (stringItems rest).map (fun l => s :: l)
  | JSONValue.null :: rest => (stringItems rest).map (fun l => "" :: l)
  | _ :: _ => none

/-- One member of an object stored into a lookup: a member whose key names a field
sets it (`null` leaves it as it is, a value of another type is an error); any other
member is skipped. The field names are those of section 6 of the specification. -/
def storeMember (lookup : defaultLookup) (key : String) (value : JSONValue) :
    Option defaultLookup :=
  if keyMatches key "success" then
    match value with
    | JSONValue.bool b => some { lookup with Success := b }
    | JSONValue.null => some lookup
    | _ => none
  else if keyMatches key "score" then
    match value with
    | JSONValue.number q =>
      if |float32 q| < (2 : ℚ) ^ 128 then some { lookup with Score := float32 q } else none
    | JSONValue.null => some lookup
    | _ => none
  else if keyMatches key "action" then
    match value with
    | JSONValue.string s => some { lookup with Action := s }
    | JSONValue.null => some lookup
    | _ => none
  else if keyMatches key "hostname" then
    match value with
    | JSONValue.string s => some { lookup with Hostname := s }
    | JSONValue.null => some lookup
    | _ => none
  else if keyMatches key "challenge_ts" then
    match value with
    | JSONValue.string s => some { lookup with ChallengeTS := s }
    | JSONValue.null => some lookup
    | _ => none
  else if keyMatches key "error-codes" then
    match value with
    | JSONValue.array items =>
      match stringItems items with
      | some codes => some { lookup with ErrorCodes := codes }
      | none => none
    | JSONValue.null => some { lookup with ErrorCodes := [] }
    | _ => none
  else some lookup

/-- The members of an object stored one after the other, an error in any of them being
an error of the whole. -/
def storeMembers (members : List (String × JSONValue)) (lookup : defaultLookup) :
    Option defaultLookup :=
  members.foldl
    (fun acc member =>
      match acc with
      | some current => storeMember current member.1 member.2
      | none => none)
    (some lookup)

/-- The zero value of `defaultLookup`, which `parseLookup` hands to the decoder. -/
def zeroLookup : defaultLookup :=
  { Success := false, Score := 0, Action := "", Hostname := "", ChallengeTS := "",
    ErrorCodes := [] }

/-- The call `json.NewDecoder(body).Decode(&lookup)`: the decoder reads the first JSON
value of the body and leaves what follows it unread, then stores the value into the
lookup: an object member by member, `null` as no change, anything else as an error. -/
def jsonDecode (body : String) : Option defaultLookup :=
  match parseValue (body.data.length + 1) body.data with
  | none => none
  | some (JSONValue.object members, _) => storeMembers members zeroLookup
  | some (JSONValue.null, _) => some zeroLookup
  | some (_, _) => none

/-- The bytes of the UTF-8 encoding of a character. -/
def utf8Bytes (c : Char) : List Nat :=
  if c.toNat < 0x80 then [c.toNat]
  else if c.toNat < 0x800 then [0xC0 + c.toNat / 0x40, 0x80 + c.toNat % 0x40]
  else if c.toNat < 0x10000 then
    [0xE0 + c.toNat / 0x1000, 0x80 + c.toNat / 0x40 % 0x40, 0x80 + c.toNat % 0x40]
  else
    [0xF0 + c.toNat / 0x40000, 0x80 + c.toNat / 0x1000 % 0x40, 0x80 + c.toNat / 0x40 % 0x40,
      0x80 + c.toNat % 0x40]

/-- An upper-case hexadecimal digit. -/
def hexDigit (n : Nat) : Char :=
  if n < 10 then Char.ofNat (0x30 + n) else Char.ofNat (0x41 + n - 10)

/-- Go's `url.QueryEscape` on one byte: letters, digits, `-`, `_`, `.` and `~` stay, a
space becomes `+`, any other byte becomes `%XX`. -/
def escapeByte (b : Nat) : List Char :=
  if (0x41 ≤ b ∧ b ≤ 0x5A) ∨ (0x61 ≤ b ∧ b ≤ 0x7A) ∨ (0x30 ≤ b ∧ b ≤ 0x39) ∨
      b = 0x2D ∨ b = 0x5F ∨ b = 0x2E ∨ b = 0x7E then [Char.ofNat b]
  else if b = 0x20 then [Char.ofNat 0x2B]
  else [Char.ofNat 0x25, hexDigit (b / 16), hexDigit (b % 16)]

/-- Go's `url.QueryEscape`. -/
def QueryEscape (s : String) : String :=
  String.mk ((s.data.flatMap utf8Bytes).flatMap escapeByte)

/-- The order of Go strings on their bytes. -/
def bytesLess : List Nat → List Nat → Bool
  | _, [] => false
  | [], _ :: _ => true
  | a :: as, b :: bs => a < b || (a = b && bytesLess as bs)

/-- Insertion of a field into a list of fields sorted by key. -/
def insertByKey (kv : String × List String) : Values → Values
  | [] => [kv]
  | head :: rest =>
    if bytesLess (kv.1.data.flatMap utf8Bytes) (head.1.data.flatMap utf8Bytes) then
      kv :: head :: rest
    else head :: insertByKey kv rest

/-- Go's `url.Values.Encode`: the fields sorted by key, each value written as
`key=value` with both sides escaped, joined by `&`. -/
def valuesEncode (values : Values) : String :=
  "&".intercalate
    ((values.foldr insertByKey []).flatMap
      (fun kv => kv.2.map (fun value => QueryEscape kv.1 ++ "=" ++ QueryEscape value)))

/-! ## A standard library and collaborators to evaluate with -/

/-- An ASCII control byte, as in `net/url`: `url.Parse` rejects a string that holds
one. -/
def isCTLByte (c : Char) : Bool :=
  c.toNat < 0x20 || c.toNat = 0x7F

/-- An instance of `Stdlib`: `http.NewRequest` rejects the URLs that hold a control
byte (the first check of `url.Parse`), and the encoder and the decoder are the models of
`url.Values.Encode` and of `json.Decoder.Decode` above. -/
def scenarioLib : Stdlib where
  urlParses := fun url => !url.data.any isCTLByte
  Encode := valuesEncode
  Decode := jsonDecode

/-- A transport that answers every request with the given body and no error. -/
def respondWith (body : String) : httpClient where
  Do := fun _ => (some { Body := body }, none)

/-- A transport that fails every request, handing back no response. -/
def failWith (text : String) : httpClient where
  Do := fun _ => (none, some (GoError.other text))

def scenarioBody : String :=
  "\x7b\"success\":true,\"score\":0.5,\"action\":\"login\",\"hostname\":\"example.com\"\x7d"

def scenarioLookup : defaultLookup :=
  { Success := true, Score := 1 / 2, Action := "login", Hostname := "example.com",
    ChallengeTS := "", ErrorCodes := [] }

def scenarioVerifier (client : httpClient) : DefaultVerifier :=
  NewVerifier client
    [WithSecret (fun _ => "s3cr3t"), WithRequiredThreshold (1 / 2), WithAllowedActions ["login"]]

def scenarioRequest (body : String) : Request :=
  { Method := "POST", URL := "https://www.google.com/recaptcha/api/siteverify",
    Header := [("Content-Type", "application/x-www-form-urlencoded")], Body := body }

/-! ## Lemmas -/

theorem utf8ByteSize_go_eq_zero (cs : List Char) :
    String.utf8ByteSize.go cs = 0 ↔ cs = [] := by
  cases cs with
  | nil => simp [String.utf8ByteSize.go]
  | cons c cs =>
    have hc : 0 < c.utf8Size := Char.utf8Size_pos c
    simp [String.utf8ByteSize.go]
    omega

theorem utf8ByteSize_eq_zero (s : String) : s.utf8ByteSize = 0 ↔ s = "" := by
  cases s with
  | mk cs =>
    rw [String.utf8ByteSize, utf8ByteSize_go_eq_zero]
    constructor
    · intro h
      subst h
      rfl
    · intro h
      exact congrArg String.data h

theorem dropWhile_eq_nil_of_all {α : Type} (p : α → Bool) (l : List α)
    (h : ∀ a ∈ l, p a = true) : l.dropWhile p = [] := by
  induction l with
  | nil => rfl
  | cons a l ih =>
    have ha : p a = true := h a (List.mem_cons_self a l)
    simp only [List.dropWhile_cons, ha, if_true]
    exact ih (fun b hb => h b (List.mem_cons_of_mem a hb))

theorem TrimSpace_of_blank (token : String) (h : ∀ c ∈ token.data, isSpace c = true) :
    TrimSpace token = "" := by
  unfold TrimSpace
  rw [dropWhile_eq_nil_of_all isSpace token.data h]
  rfl

theorem Verify_of_trimmed_empty (lib : Stdlib) (this : DefaultVerifier)
    (token clientIP : String) (h : TrimSpace token = "") :
    this.Verify lib token clientIP = (Outcome.returned false none, []) := by
  unfold DefaultVerifier.Verify
  rw [if_pos ((utf8ByteSize_eq_zero _).2 h)]

theorem Verify_of_trimmed_nonempty (lib : Stdlib) (this : DefaultVerifier)
    (token clientIP : String) (h : TrimSpace token ≠ "") :
    this.Verify lib token clientIP = this.verify lib (TrimSpace token) clientIP := by
  unfold DefaultVerifier.Verify
  rw [if_neg (fun h0 => h ((utf8ByteSize_eq_zero _).1 h0))]

/-- The five ways a call of `verify` can go, each with its outcome and its trace. -/
theorem verify_cases (lib : Stdlib) (this : DefaultVerifier) (token clientIP : String) :
    (lib.urlParses this.endpoint = false ∧
      this.verify lib token clientIP =
        (Outcome.panicked, (this.buildRequestBody lib token clientIP).2)) ∨
    (∃ request : Request, lib.urlParses this.endpoint = true ∧
      ((∃ response err, this.client.Do request = (response, some err) ∧
          this.verify lib token clientIP =
            (Outcome.returned false (some GoError.ErrLookupFailure),
              (this.buildRequestBody lib token clientIP).2 ++
                [Event.Do request response (some err)])) ∨
       (this.client.Do request = (none, none) ∧
          this.verify lib token clientIP =
            (Outcome.panicked,
              (this.buildRequestBody lib token clientIP).2 ++ [Event.Do request none none])) ∨
       (∃ response, this.client.Do request = (some response, none) ∧
          lib.Decode response.Body = none ∧
          this.verify lib token clientIP =
            (Outcome.returned false (some GoError.ErrLookupFailure),
              (this.buildRequestBody lib token clientIP).2 ++
                [Event.Do request (some response) none] ++
                [Event.decode response.Body, Event.close response.Body])) ∨
       (∃ response lookup, this.client.Do request = (some response, none) ∧
          lib.Decode response.Body = some lookup ∧
          this.verify lib token clientIP =
            (Outcome.returned (lookup.IsValid this.hosts this.actions this.threshold).1
              (lookup.IsValid this.hosts this.actions this.threshold).2,
              (this.buildRequestBody lib token clientIP).2 ++
                [Event.Do request (some response) none] ++
                [Event.decode response.Body, Event.close response.Body])))) := by
  cases hurl : lib.urlParses this.endpoint with
  | false =>
    left
    refine ⟨rfl, ?_⟩
    simp [DefaultVerifier.verify, DefaultVerifier.newRequest, NewRequest, hurl]
  | true =>
    right
    refine ⟨({ Method := "POST", URL := this.endpoint, Header := [],
               Body := (this.buildRequestBody lib token clientIP).1 } : Request).setHeader
             contentTypeHeader defaultContentType, rfl, ?_⟩
    rcases hdo : this.client.Do
      (({ Method := "POST", URL := this.endpoint, Header := [],
               Body := (this.buildRequestBody lib token clientIP).1 } : Request).setHeader
             contentTypeHeader defaultContentType) with ⟨response, err⟩
    cases err with
    | some e =>
      left
      refine ⟨response, e, rfl, ?_⟩
      simp [DefaultVerifier.verify, DefaultVerifier.newRequest, NewRequest, hurl, hdo]
    | none =>
      right
      cases response with
      | none =>
        left
        refine ⟨rfl, ?_⟩
        simp [DefaultVerifier.verify, DefaultVerifier.newRequest, NewRequest, hurl, hdo]
      | some r =>
        right
        cases hdec : lib.Decode r.Body with
        | none =>
          left
          refine ⟨r, rfl, hdec, ?_⟩
          simp [DefaultVerifier.verify, DefaultVerifier.newRequest, NewRequest, hurl, hdo,
            DefaultVerifier.parseLookup, hdec]
        | some lookup =>
          right
          refine ⟨r, lookup, rfl, hdec, ?_⟩
          simp [DefaultVerifier.verify, DefaultVerifier.newRequest, NewRequest, hurl, hdo,
            DefaultVerifier.parseLookup, hdec]

theorem blank_of_TrimSpace (token : String) (h : TrimSpace token = "") :
    ∀ c ∈ token.data, isSpace c = true := by
  unfold TrimSpace at h
  have h1 : ((token.data.dropWhile isSpace).reverse.dropWhile isSpace).reverse = [] :=
    congrArg String.data h
  have h2 : (token.data.dropWhile isSpace).reverse.dropWhile isSpace = [] :=
    List.reverse_eq_nil_iff.1 h1
  have h3 : ∀ c ∈ token.data.dropWhile isSpace, isSpace c = true := by
    intro c hc
    exact List.dropWhile_eq_nil_iff.1 h2 c (List.mem_reverse.2 hc)
  have h4 : token.data.dropWhile isSpace = [] := by
    by_contra hne
    have hhead := List.head_dropWhile_not isSpace token.data hne
    rw [h3 _ (List.head_mem hne)] at hhead
    cases hhead
  exact List.dropWhile_eq_nil_iff.1 h4

theorem requestValues_eq (this : DefaultVerifier) (token clientIP : String) :
    this.requestValues token clientIP =
      [("secret", [this.secret ()]), ("response", [token])] ++
        (if clientIP = "" then [] else [("remoteip", [clientIP])]) := by
  unfold DefaultVerifier.requestValues
  by_cases h : clientIP = ""
  · subst h
    have h0 : ¬ 0 < "".utf8ByteSize := by decide
    simp [h0]
  · have hpos : 0 < clientIP.utf8ByteSize :=
      Nat.pos_of_ne_zero (fun h0 => h ((utf8ByteSize_eq_zero _).1 h0))
    simp [hpos, h, Values.Set]

theorem verify_trace (lib : Stdlib) (this : DefaultVerifier) (token clientIP : String) :
    ∃ rest : List Event,
      (this.verify lib token clientIP).2 =
        [Event.secret (this.secret ()), Event.encode (this.requestValues token clientIP)] ++
          rest ∧
      (∀ e ∈ rest, ∀ s, e ≠ Event.secret s) ∧ (∀ e ∈ rest, ∀ v, e ≠ Event.encode v) ∧
      (lib.urlParses this.endpoint = true → doCalls rest = 1) := by
  rcases verify_cases lib this token clientIP with
    ⟨hu, h⟩ | ⟨r, hu, ⟨_, _, _, h⟩ | ⟨_, h⟩ | ⟨_, _, _, h⟩ | ⟨_, _, _, _, h⟩⟩
  · exact ⟨[], by rw [h]; simp [DefaultVerifier.buildRequestBody], by simp, by simp,
      by simp [hu]⟩
  · exact ⟨_, by rw [h]; simp [DefaultVerifier.buildRequestBody]; rfl, by simp, by simp,
      by simp [doCalls]⟩
  · exact ⟨_, by rw [h]; simp [DefaultVerifier.buildRequestBody]; rfl, by simp, by simp,
      by simp [doCalls]⟩
  · exact ⟨_, by rw [h]; simp [DefaultVerifier.buildRequestBody]; rfl, by simp, by simp,
      by simp [doCalls]⟩
  · exact ⟨_, by rw [h]; simp [DefaultVerifier.buildRequestBody]; rfl, by simp, by simp,
      by simp [doCalls]⟩

theorem foldl_settings (settings : List Setting) (init : DefaultVerifier) :
    ((settings.map Setting.option).foldl (fun this option => option this) init).secret =
        (lastSome Setting.secret? settings).getD init.secret ∧
    ((settings.map Setting.option).foldl (fun this option => option this) init).client =
        (lastSome Setting.client? settings).getD init.client ∧
    ((settings.map Setting.option).foldl (fun this option => option this) init).endpoint =
        (lastSome Setting.endpoint? settings).getD init.endpoint ∧
    ((settings.map Setting.option).foldl (fun this option => option this) init).threshold =
        (lastSome Setting.threshold? settings).getD init.threshold ∧
    ((settings.map Setting.option).foldl (fun this option => option this) init).hosts =
        ((lastSome Setting.hosts? settings).map createMap).getD init.hosts ∧
    ((settings.map Setting.option).foldl (fun this option => option this) init).actions =
        ((lastSome Setting.actions? settings).map createMap).getD init.actions := by
  induction settings generalizing init with
  | nil => simp [lastSome]
  | cons s rest ih =>
    obtain ⟨h1, h2, h3, h4, h5, h6⟩ := ih (s.option init)
    simp only [List.map_cons, List.foldl_cons]
    rw [h1, h2, h3, h4, h5, h6]
    simp only [lastSome]
    refine ⟨?_, ?_, ?_, ?_, ?_, ?_⟩
    · cases lastSome Setting.secret? rest with
      | some b => rfl
      | none => cases s <;> rfl
    · cases lastSome Setting.client? rest with
      | some b => rfl
      | none => cases s <;> rfl
    · cases lastSome Setting.endpoint? rest with
      | some b => rfl
      | none => cases s <;> rfl
    · cases lastSome Setting.threshold? rest with
      | some b => rfl
      | none => cases s <;> rfl
    · cases lastSome Setting.hosts? rest with
      | some b => rfl
      | none => cases s <;> rfl
    · cases lastSome Setting.actions? rest with
      | some b => rfl
      | none => cases s <;> rfl

theorem mem_createMap (values : List String) (value : String) :
    value ∈ createMap values ↔ value ∈ values := by
  unfold createMap
  have h : ∀ (init : StringSet),
      value ∈ values.foldl (fun allowed v => insert v allowed) init ↔
        value ∈ init ∨ value ∈ values := by
    induction values with
    | nil => intro init; simp
    | cons v rest ih =>
      intro init
      rw [List.foldl_cons, ih, Finset.mem_insert, List.mem_cons]
      tauto
  rw [h]
  simp

theorem float32_defaultThreshold : float32 defaultThreshold = 10066330 / 33554432 := by
  decide!

/-- The `float32` of the constant `0.3` lies within half a unit in the last place of it
(the unit is `2^-25` between `1/4` and `1/2`). -/
theorem float32_defaultThreshold_near :
    |float32 defaultThreshold - 3 / 10| < 1 / 2 ^ 26 := by
  rw [float32_defaultThreshold, abs_lt]
  constructor <;> norm_num

/-- The model decoder fails on a body that does not start with a JSON value, the empty
body among them. -/
theorem jsonDecode_eq_none (body : String)
    (h : parseValue (body.data.length + 1) body.data = none) : jsonDecode body = none := by
  unfold jsonDecode
  rw [h]

theorem verify_requests (lib : Stdlib) (this : DefaultVerifier) (token clientIP : String) :
    (∀ (request : Request) (response : Option Response) (err : Option GoError),
      Event.Do request response err ∈ (this.verify lib token clientIP).2 →
        request =
          { Method := "POST", URL := this.endpoint,
            Header := [("Content-Type", "application/x-www-form-urlencoded")],
            Body := lib.Encode (this.requestValues token clientIP) }) ∧
    (lib.urlParses this.endpoint = true →
      ∃ (response : Option Response) (err : Option GoError),
        Event.Do
          { Method := "POST", URL := this.endpoint,
            Header := [("Content-Type", "application/x-www-form-urlencoded")],
            Body := lib.Encode (this.requestValues token clientIP) }
          response err ∈ (this.verify lib token clientIP).2) := by
  cases hurl : lib.urlParses this.endpoint with
  | false =>
    simp [DefaultVerifier.verify, DefaultVerifier.newRequest, NewRequest, hurl,
      DefaultVerifier.buildRequestBody]
  | true =>
    rcases hdo : this.client.Do
      { Method := "POST", URL := this.endpoint,
        Header := [("Content-Type", "application/x-www-form-urlencoded")],
        Body := lib.Encode (this.requestValues token clientIP) } with ⟨response, err⟩
    cases err with
    | some e =>
      simp [DefaultVerifier.verify, DefaultVerifier.newRequest, NewRequest, hurl, hdo,
        DefaultVerifier.buildRequestBody, Request.setHeader, contentTypeHeader,
        defaultContentType]
      intro _ _ _ h _ _
      exact h
    | none =>
      cases response with
      | none =>
        simp [DefaultVerifier.verify, DefaultVerifier.newRequest, NewRequest, hurl, hdo,
          DefaultVerifier.buildRequestBody, Request.setHeader, contentTypeHeader,
          defaultContentType]
        intro _ _ _ h _ _
        exact h
      | some r =>
        cases hdec : lib.Decode r.Body with
        | none =>
          simp [DefaultVerifier.verify, DefaultVerifier.newRequest, NewRequest, hurl, hdo,
            DefaultVerifier.buildRequestBody, Request.setHeader, contentTypeHeader,
            defaultContentType, DefaultVerifier.parseLookup, hdec]
          intro _ _ _ h _ _
          exact h
        | some lookup =>
          simp [DefaultVerifier.verify, DefaultVerifier.newRequest, NewRequest, hurl, hdo,
            DefaultVerifier.buildRequestBody, Request.setHeader, contentTypeHeader,
            defaultContentType, DefaultVerifier.parseLookup, hdec]
          intro _ _ _ h _ _
          exact h

theorem createMap_eq_toFinset (values : List String) : createMap values = values.toFinset := by
  ext value
  rw [mem_createMap, List.mem_toFinset]

/-! ## Construction -/

/-- C7: `NewVerifier` without options yields the defaults: a secret provider that
returns the empty string, the endpoint
`https://www.google.com/recaptcha/api/siteverify`, the threshold `0.3` (as a `float32`),
no allowed host and no allowed action. -/
theorem NewVerifier_defaults (DefaultClient : httpClient) :
    (NewVerifier DefaultClient []).secret () = "" ∧
    (NewVerifier DefaultClient []).endpoint =
      "https://www.google.com/recaptcha/api/siteverify" ∧
    (NewVerifier DefaultClient []).threshold = float32 (3 / 10) ∧
    (NewVerifier DefaultClient []).hosts = ∅ ∧
    (NewVerifier DefaultClient []).actions = ∅ :=
  ⟨rfl, rfl, rfl, rfl, rfl⟩

/-- C8: `NewVerifier` yields the built-in defaults with the options applied to them
from left to right, whatever the options are. For a list of options made with the six
`With...` functions, each field then holds the value given by the last option of the
list that sets the field, and the default when no option sets it; the allowed hosts and
the allowed actions are exactly the strings passed to the last `WithAllowedHosts` and to
the last `WithAllowedActions`, so a later one replaces an earlier one and adds nothing
to it. -/
theorem NewVerifier_last_option_wins (DefaultClient : httpClient)
    (options : List VerifierOption) (settings : List Setting) :
    NewVerifier DefaultClient options =
        options.foldl (fun this option => option this)
          { secret := fun _ => "", client := DefaultClient,
            endpoint := "https://www.google.com/recaptcha/api/siteverify",
            threshold := float32 (3 / 10), hosts := ∅, actions := ∅ } ∧
    (NewVerifier DefaultClient (settings.map Setting.option)).secret =
        (lastSome Setting.secret? settings).getD (fun _ => "") ∧
    (NewVerifier DefaultClient (settings.map Setting.option)).client =
        (lastSome Setting.client? settings).getD DefaultClient ∧
    (NewVerifier DefaultClient (settings.map Setting.option)).endpoint =
        (lastSome Setting.endpoint? settings).getD
          "https://www.google.com/recaptcha/api/siteverify" ∧
    (NewVerifier DefaultClient (settings.map Setting.option)).threshold =
        (lastSome Setting.threshold? settings).getD (float32 (3 / 10)) ∧
    (∀ host : String,
      host ∈ (NewVerifier DefaultClient (settings.map Setting.option)).hosts ↔
        host ∈ (lastSome Setting.hosts? settings).getD []) ∧
    (∀ action : String,
      action ∈ (NewVerifier DefaultClient (settings.map Setting.option)).actions ↔
        action ∈ (lastSome Setting.actions? settings).getD []) := by
  refine ⟨rfl, ?_⟩
  unfold NewVerifier
  obtain ⟨h1, h2, h3, h4, h5, h6⟩ := foldl_settings settings
    (WithAllowedActions []
      (WithAllowedHosts []
        (WithRequiredThreshold (float32 defaultThreshold)
          (WithEndpoint defaultEndpoint
            (WithHTTPClient DefaultClient
              (WithSecret (fun _ => "") (zeroVerifier DefaultClient)))))))
  rw [h1, h2, h3, h4, h5, h6]
  refine ⟨rfl, rfl, rfl, rfl, ?_, ?_⟩
  · intro host
    cases lastSome Setting.hosts? settings with
    | none => exact (mem_createMap [] host)
    | some values => exact (mem_createMap values host)
  · intro action
    cases lastSome Setting.actions? settings with
    | none => exact (mem_createMap [] action)
    | some values => exact (mem_createMap values action)

/-! ## The `Verify` round trip -/

/-- C1: for a token that is empty or made of white space only, whatever the client
address and the configuration, `Verify` returns `(false, nil)` and makes no call at all:
its trace is empty, so the transport's `Do` is not invoked. -/
theorem Verify_blank_token (lib : Stdlib) (this : DefaultVerifier) (token clientIP : String)
    (hblank : ∀ c ∈ token.data, isSpace c = true) :
    this.Verify lib token clientIP = (Outcome.returned false none, []) ∧
      doCalls (this.Verify lib token clientIP).2 = 0 := by
  have h := Verify_of_trimmed_empty lib this token clientIP (TrimSpace_of_blank token hblank)
  rw [h]
  exact ⟨rfl, rfl⟩

/-- C2 (what the code does): when the token is not empty after trimming and
`http.NewRequest` rejects the configured endpoint, `Verify` does not return
`(false, ErrLookupFailure)`: it panics, on the nil request whose error was discarded. -/
theorem Verify_panics_on_rejected_endpoint (lib : Stdlib) (this : DefaultVerifier)
    (token clientIP : String) (htoken : TrimSpace token ≠ "")
    (hurl : lib.urlParses this.endpoint = false) :
    (this.Verify lib token clientIP).1 = Outcome.panicked := by
  rw [Verify_of_trimmed_nonempty lib this token clientIP htoken]
  rcases verify_cases lib this (TrimSpace token) clientIP with ⟨_, h⟩ | ⟨_, hparsed, _⟩
  · rw [h]
  · rw [hurl] at hparsed
    cases hparsed

/-- C3: when the token is not empty after trimming and the transport's `Do` returns an
error, `Verify` returns `(false, ErrLookupFailure)`: the boolean is false and the error
is `ErrLookupFailure`, whatever error the transport gave. -/
theorem Verify_transport_error (lib : Stdlib) (this : DefaultVerifier)
    (token clientIP : String) (request : Request) (response : Option Response)
    (err : GoError) (htoken : TrimSpace token ≠ "")
    (hdo : Event.Do request response (some err) ∈ (this.Verify lib token clientIP).2) :
    (this.Verify lib token clientIP).1 =
      Outcome.returned false (some GoError.ErrLookupFailure) := by
  rw [Verify_of_trimmed_nonempty lib this token clientIP htoken] at hdo ⊢
  rcases verify_cases lib this (TrimSpace token) clientIP with
    ⟨_, h⟩ | ⟨r, _, ⟨_, _, _, h⟩ | ⟨_, h⟩ | ⟨_, _, _, h⟩ | ⟨_, _, _, _, h⟩⟩
  · rw [h] at hdo
    simp [DefaultVerifier.buildRequestBody] at hdo
  · rw [h]
  · rw [h] at hdo
    simp [DefaultVerifier.buildRequestBody] at hdo
  · rw [h]
  · rw [h] at hdo
    simp [DefaultVerifier.buildRequestBody] at hdo

/-- C4, as amended: when the token is not empty after trimming and the transport returns
a response whose body the JSON decoder fails on (a body that does not start with a JSON
value that decodes into a lookup result, the empty body for one), `Verify` returns
`(false, ErrLookupFailure)`. -/
theorem Verify_undecodable_body (lib : Stdlib) (this : DefaultVerifier)
    (token clientIP : String) (request : Request) (response : Response)
    (err : Option GoError) (htoken : TrimSpace token ≠ "")
    (hdo : Event.Do request (some response) err ∈ (this.Verify lib token clientIP).2)
    (hdecode : lib.Decode response.Body = none) :
    (this.Verify lib token clientIP).1 =
      Outcome.returned false (some GoError.ErrLookupFailure) := by
  rw [Verify_of_trimmed_nonempty lib this token clientIP htoken] at hdo ⊢
  rcases verify_cases lib this (TrimSpace token) clientIP with
    ⟨_, h⟩ | ⟨r, _, ⟨_, _, _, h⟩ | ⟨_, h⟩ | ⟨_, _, _, h⟩ | ⟨r2, _, _, hdec, h⟩⟩
  · rw [h] at hdo
    simp [DefaultVerifier.buildRequestBody] at hdo
  · rw [h]
  · rw [h] at hdo
    simp [DefaultVerifier.buildRequestBody] at hdo
  · rw [h]
  · rw [h] at hdo
    simp [DefaultVerifier.buildRequestBody] at hdo
    rw [← hdo.2.1, hdecode] at hdec
    cases hdec

/-- C5: when the token is not empty after trimming, the transport returns a response
and no error, and the body decodes into the lookup result `lookup`, `Verify` returns
exactly the pair that `lookup.IsValid` gives on the configured hosts, actions and
threshold. -/
theorem Verify_delegates_to_IsValid (lib : Stdlib) (this : DefaultVerifier)
    (token clientIP : String) (request : Request) (response : Response)
    (lookup : defaultLookup) (htoken : TrimSpace token ≠ "")
    (hdo : Event.Do request (some response) none ∈ (this.Verify lib token clientIP).2)
    (hdecode : lib.Decode response.Body = some lookup) :
    (this.Verify lib token clientIP).1 =
      Outcome.returned (lookup.IsValid this.hosts this.actions this.threshold).1
        (lookup.IsValid this.hosts this.actions this.threshold).2 := by
  rw [Verify_of_trimmed_nonempty lib this token clientIP htoken] at hdo ⊢
  rcases verify_cases lib this (TrimSpace token) clientIP with
    ⟨_, h⟩ | ⟨r, _, ⟨_, _, _, h⟩ | ⟨_, h⟩ | ⟨r2, _, hdec, h⟩ | ⟨r2, _, _, hdec, h⟩⟩
  · rw [h] at hdo
    simp [DefaultVerifier.buildRequestBody] at hdo
  · rw [h] at hdo
    simp [DefaultVerifier.buildRequestBody] at hdo
  · rw [h] at hdo
    simp [DefaultVerifier.buildRequestBody] at hdo
  · rw [h] at hdo
    simp [DefaultVerifier.buildRequestBody] at hdo
    rw [← hdo.2, hdecode] at hdec
    cases hdec
  · rw [h] at hdo
    simp [DefaultVerifier.buildRequestBody] at hdo
    rw [← hdo.2, hdecode] at hdec
    cases hdec
    rw [h]

/-- C6: when the token is not empty after trimming, the secret provider is asked for
its value during the call and the form values encoded are exactly `secret` with that
value, `response` with the trimmed token, and `remoteip` with the client address when
that address is not empty (no `remoteip` otherwise), with no other field and no other
encoding. The encoding of these values is the body of the request: a request handed to
`Do` is the POST to the endpoint with the form content type and that body, and there is
such a request whenever the endpoint is one `http.NewRequest` accepts. -/
theorem Verify_form_values (lib : Stdlib) (this : DefaultVerifier) (token clientIP : String)
    (htoken : TrimSpace token ≠ "") :
    Event.secret (this.secret ()) ∈ (this.Verify lib token clientIP).2 ∧
    encodedValues (this.Verify lib token clientIP).2 =
      [[("secret", [this.secret ()]), ("response", [TrimSpace token])] ++
        (if clientIP = "" then [] else [("remoteip", [clientIP])])] ∧
    (∀ (request : Request) (response : Option Response) (err : Option GoError),
      Event.Do request response err ∈ (this.Verify lib token clientIP).2 →
        request =
          { Method := "POST", URL := this.endpoint,
            Header := [("Content-Type", "application/x-www-form-urlencoded")],
            Body := lib.Encode
              ([("secret", [this.secret ()]), ("response", [TrimSpace token])] ++
                (if clientIP = "" then [] else [("remoteip", [clientIP])])) }) ∧
    (lib.urlParses this.endpoint = true →
      ∃ (response : Option Response) (err : Option GoError),
        Event.Do
          { Method := "POST", URL := this.endpoint,
            Header := [("Content-Type", "application/x-www-form-urlencoded")],
            Body := lib.Encode
              ([("secret", [this.secret ()]), ("response", [TrimSpace token])] ++
                (if clientIP = "" then [] else [("remoteip", [clientIP])])) }
          response err ∈ (this.Verify lib token clientIP).2) := by
  rw [Verify_of_trimmed_nonempty lib this token clientIP htoken]
  obtain ⟨hall, hex⟩ := verify_requests lib this (TrimSpace token) clientIP
  rw [requestValues_eq] at hall hex
  refine ⟨?_, ?_, hall, hex⟩
  · obtain ⟨rest, htrace, _, _, _⟩ := verify_trace lib this (TrimSpace token) clientIP
    rw [htrace]
    simp
  · obtain ⟨rest, htrace, _, hencode, _⟩ := verify_trace lib this (TrimSpace token) clientIP
    rw [htrace, requestValues_eq]
    have hrest : encodedValues rest = [] := by
      unfold encodedValues
      rw [List.filterMap_eq_nil_iff]
      intro e he
      cases e with
      | encode v => exact absurd rfl (hencode _ he v)
      | secret _ => rfl
      | Do _ _ _ => rfl
      | decode _ => rfl
      | close _ => rfl
    have happ : encodedValues
        ([Event.secret (this.secret ()),
          Event.encode ([("secret", [this.secret ()]), ("response", [TrimSpace token])] ++
            (if clientIP = "" then [] else [("remoteip", [clientIP])]))] ++ rest) =
        [[("secret", [this.secret ()]), ("response", [TrimSpace token])] ++
            (if clientIP = "" then [] else [("remoteip", [clientIP])])] ++
          encodedValues rest := by
      simp [encodedValues]
    rw [happ, hrest]
    rfl

/-- C9, as amended: when the token is not empty after trimming, the secret provider is
invoked exactly once and, if the outbound request can be constructed, the transport's
`Do` is invoked exactly once, whatever the transport answers; when the token is empty or
made of white space only, the secret provider is not invoked at all. -/
theorem Verify_call_counts (lib : Stdlib) (this : DefaultVerifier) (token clientIP : String) :
    (TrimSpace token ≠ "" →
      secretCalls (this.Verify lib token clientIP).2 = 1 ∧
      (lib.urlParses this.endpoint = true →
        doCalls (this.Verify lib token clientIP).2 = 1)) ∧
    ((∀ c ∈ token.data, isSpace c = true) →
      secretCalls (this.Verify lib token clientIP).2 = 0) := by
  constructor
  · intro htoken
    rw [Verify_of_trimmed_nonempty lib this token clientIP htoken]
    obtain ⟨rest, htrace, hsecret, _, hdo⟩ := verify_trace lib this (TrimSpace token) clientIP
    rw [htrace]
    have hrest : secretCalls rest = 0 := by
      unfold secretCalls
      rw [List.length_eq_zero, List.filter_eq_nil_iff]
      intro e he
      cases e with
      | secret s => exact absurd rfl (hsecret _ he s)
      | encode _ => simp
      | Do _ _ _ => simp
      | decode _ => simp
      | close _ => simp
    constructor
    · have happ : secretCalls ([Event.secret (this.secret ()),
          Event.encode (this.requestValues (TrimSpace token) clientIP)] ++ rest) =
          1 + secretCalls rest := by
        simp [secretCalls]
        omega
      rw [happ, hrest]
    · intro hurl
      have happ : doCalls ([Event.secret (this.secret ()),
          Event.encode (this.requestValues (TrimSpace token) clientIP)] ++ rest) =
          doCalls rest := by
        simp [doCalls]
      rw [happ, hdo hurl]
  · intro hblank
    rw [Verify_of_trimmed_empty lib this token clientIP (TrimSpace_of_blank token hblank)]
    rfl

/-- C10: when the transport returns a response (a response and no error), the response
body is closed before `Verify` returns, whether the decoder accepts the body or rejects
it: the trace of the call ends with the decoding of that body followed by its closing. -/
theorem Verify_closes_body (lib : Stdlib) (this : DefaultVerifier) (token clientIP : String)
    (request : Request) (response : Response)
    (hdo : Event.Do request (some response) none ∈ (this.Verify lib token clientIP).2) :
    Event.close response.Body ∈ (this.Verify lib token clientIP).2 ∧
      ∃ before : List Event, (this.Verify lib token clientIP).2 =
        before ++ [Event.decode response.Body, Event.close response.Body] := by
  by_cases htoken : TrimSpace token = ""
  · rw [Verify_of_trimmed_empty lib this token clientIP htoken] at hdo
    simp at hdo
  · rw [Verify_of_trimmed_nonempty lib this token clientIP htoken] at hdo ⊢
    rcases verify_cases lib this (TrimSpace token) clientIP with
      ⟨_, h⟩ | ⟨r, _, ⟨_, _, _, h⟩ | ⟨_, h⟩ | ⟨r2, _, _, h⟩ | ⟨r2, _, _, _, h⟩⟩
    · rw [h] at hdo
      simp [DefaultVerifier.buildRequestBody] at hdo
    · rw [h] at hdo
      simp [DefaultVerifier.buildRequestBody] at hdo
    · rw [h] at hdo
      simp [DefaultVerifier.buildRequestBody] at hdo
    · rw [h] at hdo ⊢
      simp [DefaultVerifier.buildRequestBody] at hdo
      rw [← hdo.2]
      exact ⟨by simp, _, rfl⟩
    · rw [h] at hdo ⊢
      simp [DefaultVerifier.buildRequestBody] at hdo
      rw [← hdo.2]
      exact ⟨by simp, _, rfl⟩

/-! ## The theorems at concrete calls -/

/-- C1 at a token of a space, a tab and a line feed. -/
theorem Verify_blank_token_witness :
    (∀ c ∈ " \t\n".data, isSpace c = true) ∧
    ((scenarioVerifier (respondWith scenarioBody)).Verify scenarioLib " \t\n" "203.0.113.7" =
        (Outcome.returned false none, []) ∧
      doCalls ((scenarioVerifier (respondWith scenarioBody)).Verify scenarioLib " \t\n"
        "203.0.113.7").2 = 0) :=
  ⟨by decide, Verify_blank_token scenarioLib _ " \t\n" "203.0.113.7" (by decide)⟩

/-- C2 at the failing input: the default endpoint followed by a line feed, which
`url.Parse` rejects for its control character. -/
theorem Verify_panics_on_rejected_endpoint_witness :
    TrimSpace " token " ≠ "" ∧
    scenarioLib.urlParses
      (NewVerifier (respondWith scenarioBody)
        [WithEndpoint "https://www.google.com/recaptcha/api/siteverify\n"]).endpoint = false ∧
    ((NewVerifier (respondWith scenarioBody)
        [WithEndpoint "https://www.google.com/recaptcha/api/siteverify\n"]).Verify
      scenarioLib " token " "").1 = Outcome.panicked :=
  ⟨by decide, by decide,
    Verify_panics_on_rejected_endpoint scenarioLib _ " token " "" (by decide) (by decide)⟩

/-- C3 at a transport that refuses the connection. -/
theorem Verify_transport_error_witness :
    TrimSpace " token " ≠ "" ∧
    Event.Do (scenarioRequest "response=token&secret=s3cr3t") none
        (some (GoError.other "connection refused")) ∈
      ((scenarioVerifier (failWith "connection refused")).Verify scenarioLib " token " "").2 ∧
    ((scenarioVerifier (failWith "connection refused")).Verify scenarioLib " token " "").1 =
      Outcome.returned false (some GoError.ErrLookupFailure) :=
  ⟨by decide, by decide,
    Verify_transport_error scenarioLib (scenarioVerifier (failWith "connection refused"))
      " token " "" (scenarioRequest "response=token&secret=s3cr3t") none
      (GoError.other "connection refused") (by decide) (by decide)⟩

/-- C4, as amended, at a response with an empty body. -/
theorem Verify_undecodable_body_witness :
    TrimSpace " token " ≠ "" ∧
    Event.Do (scenarioRequest "response=token&secret=s3cr3t") (some { Body := "" }) none ∈
      ((scenarioVerifier (respondWith "")).Verify scenarioLib " token " "").2 ∧
    scenarioLib.Decode (Response.Body { Body := "" }) = none ∧
    ((scenarioVerifier (respondWith "")).Verify scenarioLib " token " "").1 =
      Outcome.returned false (some GoError.ErrLookupFailure) :=
  ⟨by decide, by decide, by decide,
    Verify_undecodable_body scenarioLib (scenarioVerifier (respondWith "")) " token " ""
      (scenarioRequest "response=token&secret=s3cr3t") { Body := "" } none
      (by decide) (by decide) (by decide)⟩

/-- C4 as stated fails: the decoder reads the first JSON value of the body and stops
there, so a body made of the response of the first scenario of section 8 followed by
`garbage`, which is not valid JSON, is decoded and `Verify` returns `(true, nil)`, not
`(false, ErrLookupFailure)`. -/
theorem Verify_ignores_bytes_after_value :
    TrimSpace " token " ≠ "" ∧
    isValidJSON (scenarioBody ++ "garbage") = false ∧
    Event.Do (scenarioRequest "response=token&secret=s3cr3t")
        (some { Body := scenarioBody ++ "garbage" }) none ∈
      ((scenarioVerifier (respondWith (scenarioBody ++ "garbage"))).Verify scenarioLib
        " token " "").2 ∧
    ((scenarioVerifier (respondWith (scenarioBody ++ "garbage"))).Verify scenarioLib
        " token " "").1 = Outcome.returned true none ∧
    ((scenarioVerifier (respondWith (scenarioBody ++ "garbage"))).Verify scenarioLib
        " token " "").1 ≠ Outcome.returned false (some GoError.ErrLookupFailure) := by
  decide!

/-- C5 at the first scenario of section 8: threshold 0.5, allowed action `login`, and a
response that reports success with score 0.5 for that action. -/
theorem Verify_delegates_to_IsValid_witness :
    TrimSpace " token " ≠ "" ∧
    Event.Do (scenarioRequest "remoteip=203.0.113.7&response=token&secret=s3cr3t")
        (some { Body := scenarioBody }) none ∈
      ((scenarioVerifier (respondWith scenarioBody)).Verify scenarioLib " token "
        "203.0.113.7").2 ∧
    scenarioLib.Decode (Response.Body { Body := scenarioBody }) = some scenarioLookup ∧
    ((scenarioVerifier (respondWith scenarioBody)).Verify scenarioLib " token "
        "203.0.113.7").1 =
      Outcome.returned
        (scenarioLookup.IsValid (scenarioVerifier (respondWith scenarioBody)).hosts
          (scenarioVerifier (respondWith scenarioBody)).actions
          (scenarioVerifier (respondWith scenarioBody)).threshold).1
        (scenarioLookup.IsValid (scenarioVerifier (respondWith scenarioBody)).hosts
          (scenarioVerifier (respondWith scenarioBody)).actions
          (scenarioVerifier (respondWith scenarioBody)).threshold).2 :=
  ⟨by decide, by decide!, by decide!,
    Verify_delegates_to_IsValid scenarioLib (scenarioVerifier (respondWith scenarioBody))
      " token " "203.0.113.7"
      (scenarioRequest "remoteip=203.0.113.7&response=token&secret=s3cr3t")
      { Body := scenarioBody } scenarioLookup (by decide) (by decide!) (by decide!)⟩

/-- C6 at a token with surrounding spaces and a client address: the request body is
`remoteip=203.0.113.7&response=token&secret=s3cr3t`. -/
theorem Verify_form_values_witness :
    TrimSpace " token " ≠ "" ∧
    scenarioLib.Encode
        ([("secret", [(scenarioVerifier (respondWith scenarioBody)).secret ()]),
          ("response", [TrimSpace " token "])] ++
          (if "203.0.113.7" = "" then [] else [("remoteip", ["203.0.113.7"])])) =
      "remoteip=203.0.113.7&response=token&secret=s3cr3t" ∧
    (Event.secret ((scenarioVerifier (respondWith scenarioBody)).secret ()) ∈
        ((scenarioVerifier (respondWith scenarioBody)).Verify scenarioLib " token "
          "203.0.113.7").2 ∧
      encodedValues ((scenarioVerifier (respondWith scenarioBody)).Verify scenarioLib " token "
          "203.0.113.7").2 =
        [[("secret", [(scenarioVerifier (respondWith scenarioBody)).secret ()]),
          ("response", [TrimSpace " token "])] ++
          (if "203.0.113.7" = "" then [] else [("remoteip", ["203.0.113.7"])])] ∧
      (∀ (request : Request) (response : Option Response) (err : Option GoError),
        Event.Do request response err ∈
            ((scenarioVerifier (respondWith scenarioBody)).Verify scenarioLib " token "
              "203.0.113.7").2 →
          request =
            { Method := "POST", URL := (scenarioVerifier (respondWith scenarioBody)).endpoint,
              Header := [("Content-Type", "application/x-www-form-urlencoded")],
              Body := scenarioLib.Encode
                ([("secret", [(scenarioVerifier (respondWith scenarioBody)).secret ()]),
                  ("response", [TrimSpace " token "])] ++
                  (if "203.0.113.7" = "" then [] else [("remoteip", ["203.0.113.7"])])) }) ∧
      (scenarioLib.urlParses (scenarioVerifier (respondWith scenarioBody)).endpoint = true →
        ∃ (response : Option Response) (err : Option GoError),
          Event.Do
            { Method := "POST", URL := (scenarioVerifier (respondWith scenarioBody)).endpoint,
              Header := [("Content-Type", "application/x-www-form-urlencoded")],
              Body := scenarioLib.Encode
                ([("secret", [(scenarioVerifier (respondWith scenarioBody)).secret ()]),
                  ("response", [TrimSpace " token "])] ++
                  (if "203.0.113.7" = "" then [] else [("remoteip", ["203.0.113.7"])])) }
            response err ∈
              ((scenarioVerifier (respondWith scenarioBody)).Verify scenarioLib " token "
                "203.0.113.7").2)) :=
  ⟨by decide, by decide,
    Verify_form_values scenarioLib (scenarioVerifier (respondWith scenarioBody)) " token "
      "203.0.113.7" (by decide)⟩

/-- C9, as amended, at a call that reaches the transport. -/
theorem Verify_call_counts_witness :
    TrimSpace " token " ≠ "" ∧
    scenarioLib.urlParses (scenarioVerifier (respondWith scenarioBody)).endpoint = true ∧
    secretCalls ((scenarioVerifier (respondWith scenarioBody)).Verify scenarioLib " token "
      "").2 = 1 ∧
    doCalls ((scenarioVerifier (respondWith scenarioBody)).Verify scenarioLib " token "
      "").2 = 1 :=
  ⟨by decide, by decide,
    ((Verify_call_counts scenarioLib (scenarioVerifier (respondWith scenarioBody)) " token "
      "").1 (by decide)).1,
    ((Verify_call_counts scenarioLib (scenarioVerifier (respondWith scenarioBody)) " token "
      "").1 (by decide)).2 (by decide)⟩

/-- C9 as stated fails: with an endpoint that `http.NewRequest` rejects (here one that
ends in a line feed) and a token that is not empty after trimming, the secret provider
is invoked once but the transport's `Do` is not invoked. -/
theorem Verify_rejected_endpoint_skips_Do :
    TrimSpace " token " ≠ "" ∧
    doCalls ((NewVerifier (respondWith scenarioBody)
        [WithEndpoint "https://www.google.com/recaptcha/api/siteverify\n"]).Verify
        scenarioLib " token " "").2 = 0 ∧
    ¬ (secretCalls ((NewVerifier (respondWith scenarioBody)
          [WithEndpoint "https://www.google.com/recaptcha/api/siteverify\n"]).Verify
          scenarioLib " token " "").2 = 1 ∧
        doCalls ((NewVerifier (respondWith scenarioBody)
          [WithEndpoint "https://www.google.com/recaptcha/api/siteverify\n"]).Verify
          scenarioLib " token " "").2 = 1) := by
  decide

/-- C10 at a response whose body the decoder rejects. -/
theorem Verify_closes_body_witness :
    Event.Do (scenarioRequest "response=token&secret=s3cr3t") (some { Body := "" }) none ∈
      ((scenarioVerifier (respondWith "")).Verify scenarioLib " token " "").2 ∧
    (Event.close (Response.Body { Body := "" }) ∈
        ((scenarioVerifier (respondWith "")).Verify scenarioLib " token " "").2 ∧
      ∃ before : List Event,
        ((scenarioVerifier (respondWith "")).Verify scenarioLib " token " "").2 =
          before ++ [Event.decode (Response.Body { Body := "" }),
            Event.close (Response.Body { Body := "" })]) :=
  ⟨by decide,
    Verify_closes_body scenarioLib (scenarioVerifier (respondWith "")) " token " ""
      (scenarioRequest "response=token&secret=s3cr3t") { Body := "" } (by decide)⟩

end Recaptcha
